import Mathlib

/-!
Shallow embedding of the deployment-configuration resolution and
precondition-verification engine of `src/lib/common.ts` (class `Common`),
together with theorems settling the specification claims.

Strings are modelled as Lean `String`s; the JavaScript string operations the
source uses (`split`, `toUpperCase`, `toLowerCase`, `charAt(0)`, `slice(1)`,
`replaceAll` with a string pattern) are given explicit, executable
definitions over `String.data` so that every theorem can be evaluated on
concrete inputs.  Case mapping is modelled with Lean's ASCII `Char.toUpper`
and `Char.toLower`, which agree with the JavaScript functions on the ASCII
inputs the configuration uses.
-/

namespace KeycloakCdk

/-- JS `value.toUpperCase()` (ASCII range). -/
def strUpper (s : String) : String := ⟨s.data.map Char.toUpper⟩

/-- JS `value.split(sep)` for a single-character separator: `""` splits to
`[""]`, a separator at either end produces an empty word, exactly as in
JavaScript. -/
def splitOnChar (sep : Char) : List Char → List (List Char)
  | [] => [[]]
  | c :: cs =>
    if c = sep then [] :: splitOnChar sep cs
    else
      match splitOnChar sep cs with
      | [] => [[c]]
      | w :: ws => (c :: w) :: ws

/-- JS `word.charAt(0).toUpperCase() + word.slice(1).toLowerCase()` on the
character list of a word (the empty word yields the empty string, as
`charAt(0)` and `slice(1)` both give `""` there). -/
def capWord : List Char → List Char
  | [] => []
  | c :: rest => c.toUpper :: rest.map Char.toLower

/-- Bool test that `pre` is a leading substring of `m` (used to state the
"message begins with the application prefix" claims). -/
def startsWithStr (pre m : String) : Bool := pre.data.isPrefixOf m.data

/-- JS `out.replaceAll(pat, rep)` with a *string* pattern: scan left to
right, replace each non-overlapping occurrence, never rescanning the
replacement text.  The fuel argument (instantiated with the length of the
scanned list) makes the recursion structural so the kernel can evaluate it.
The empty pattern never arises in the source (patterns are
`$\x7bVERSION_i\x7d`), and is treated as matching nothing. -/
def replaceAllAux (pat rep : List Char) : Nat → List Char → List Char
  | _, [] => []
  | 0, l => l
  | fuel + 1, c :: cs =>
    if pat.isPrefixOf (c :: cs) && !pat.isEmpty then
      rep ++ replaceAllAux pat rep fuel (cs.drop (pat.length - 1))
    else
      c :: replaceAllAux pat rep fuel cs

/-- String-level `replaceAll`. -/
def replaceAllStr (s pat rep : String) : String :=
  ⟨replaceAllAux pat.data rep.data s.data.length s.data⟩

/-! ## Data model (`cdk.json` context `params`, as read by `Common`) -/

/-- `params.target`: the selected deployment context. -/
structure Target where
  application : String
  environment : String
  branch : String
  repository : String
deriving DecidableEq, Repr

/-- One record of `params.environments`. -/
structure EnvRecord where
  name : String
  account : String
  region : String
  domain : String
deriving DecidableEq, Repr

/-- One record of `params.containers`. -/
structure Container where
  name : String
  environment : String
  repositoryName : String
  imagePath : String
  version : List String
  tag : String
deriving DecidableEq, Repr

/-- The whole configuration document. -/
structure Config where
  target : Target
  environments : List EnvRecord
  containers : List Container
deriving DecidableEq, Repr

/-- `const validEnvNames = Object.values(envs)` = `["dev", "stg", "prod"]`. -/
def validEnvNames : List String := ["dev", "stg", "prod"]

/-! ## NameEngine (`Common.capitalizeString`, `getId`, `getResourceName`,
`getResourceNamePath`, `getConsoleMessage`) and tier classification -/

/-- `Common.capitalizeString`: split on `-`, capitalize each word
(first character upper-cased, rest lower-cased), concatenate. -/
def capitalizeString (value : String) : String :=
  ⟨(splitOnChar '-' value.data).foldl (fun str word => str ++ capWord word) []⟩

/-- `Common.isProduction`. -/
def isProduction (cfg : Config) : Bool := cfg.target.environment == "prod"

/-- `Common.isStaging`. -/
def isStaging (cfg : Config) : Bool := cfg.target.environment == "stg"

/-- `Common.isDevelopment`. -/
def isDevelopment (cfg : Config) : Bool := cfg.target.environment == "dev"

/-- `Common.isProductionOrStaging`. -/
def isProductionOrStaging (cfg : Config) : Bool :=
  cfg.target.environment == "prod" || cfg.target.environment == "stg"

/-- `Common.getId`: capitalized application ++ capitalized environment ++
capitalized branch ++ value. -/
def getId (cfg : Config) (value : String) : String :=
  capitalizeString cfg.target.application ++
  capitalizeString cfg.target.environment ++
  capitalizeString cfg.target.branch ++ value

/-- `Common.getResourceName`: `app-env-value` on the durable tiers,
`app-env-branch-value` otherwise. -/
def getResourceName (cfg : Config) (value : String) : String :=
  if isProductionOrStaging cfg then
    cfg.target.application ++ "-" ++ cfg.target.environment ++ "-" ++ value
  else
    cfg.target.application ++ "-" ++ cfg.target.environment ++ "-" ++
      cfg.target.branch ++ "-" ++ value

/-- `Common.getResourceNamePath`. -/
def getResourceNamePath (cfg : Config) (value : String) : String :=
  "/" ++ cfg.target.application ++ "/" ++ cfg.target.environment ++ "/" ++
    cfg.target.branch ++ "/" ++ value

/-- `Common.getConsoleMessage`: `[APP] message` with the application name
upper-cased. -/
def getConsoleMessage (cfg : Config) (value : String) : String :=
  "[" ++ strUpper cfg.target.application ++ "] " ++ value

/-! ## Validator (`Common.verifyEnvironment`, `Common.verifyContainer`) -/

/-- The aggregate validity boolean computed inside
`Common.verifyEnvironment` (`isValidEnvironment`): all five checks run and
each failing one clears the single `isValid` flag.  JS `new Set(xs).size`
is the number of distinct elements, i.e. `xs.dedup.length`. -/
def isValidEnvironment (cfg : Config) : Bool :=
  let targetEnv := cfg.target.environment
  let envNames := cfg.environments.map (·.name)
  let envNameUniqueLength := envNames.dedup.length
  (validEnvNames.contains targetEnv)
  && (envNames.all fun v => validEnvNames.contains v)
  && (envNames.length == envNameUniqueLength)
  && (envNameUniqueLength == (cfg.environments.map (·.account)).dedup.length)
  && ((envNames.filter fun v => v == targetEnv).length == 1)

/-- `Common.verifyEnvironment`: raises a `ConfigurationError` (modelled as
the error message the source throws) exactly when the aggregate boolean is
false. -/
def verifyEnvironment (cfg : Config) : Except String Unit :=
  if isValidEnvironment cfg then Except.ok ()
  else Except.error (getConsoleMessage cfg "Environment setting in 'cdk.json' not valid.")

/-- `Common.getEnvironment` (no argument): the first record of
`params.environments` whose name equals `params.target.environment`
(`Array.prototype.find`; `none` models JS `undefined`). -/
def getEnvironment (cfg : Config) : Option EnvRecord :=
  cfg.environments.find? fun e => e.name == cfg.target.environment

/-- `Common.getEnvironment(name)` with an explicit environment name. -/
def getEnvironmentNamed (cfg : Config) (envName : String) : Option EnvRecord :=
  cfg.environments.find? fun e => e.name == envName

/-- `Common.getContainer`: the first record of `params.containers` whose
name equals the given image name. -/
def getContainer (cfg : Config) (imageName : String) : Option Container :=
  cfg.containers.find? fun c => c.name == imageName

/-! ## PreconditionVerifier (`Common.verifyCallerAccount`,
`Common.verifyBranch`, the repository check inside `Common.verifyContainer`)

Each check is issued against an external service and observed
asynchronously; its failure is the error thrown inside the `.then`
continuation.  The external responses (caller identity, branch list,
repository list) are parameters of the model. -/

/-- The error message `Common.verifyCallerAccount` throws on an account
mismatch. -/
def identityMismatchMsg (cfg : Config) (callerAccount targetAccount : String) : String :=
  getConsoleMessage cfg
    ("The caller account '" ++ callerAccount ++ "' does not match the account '" ++
      targetAccount ++ "' specified as the target of the CDK.")

/-- The identity check's continuation (`Common.verifyCallerAccount`): given
the environment record `getEnvironment` resolved and the account returned
by the identity service, throw on inequality. -/
def identityCheckError (cfg : Config) (env : EnvRecord) (callerAccount : String) :
    Option String :=
  if callerAccount == env.account then none
  else some (identityMismatchMsg cfg callerAccount env.account)

/-- The branch check's continuation (`Common.verifyBranch`): given the
branch list returned by the repository service, throw when the target
branch is absent. -/
def branchCheckError (cfg : Config) (branches : List String) : Option String :=
  if branches.contains cfg.target.branch then none
  else
    some (getConsoleMessage cfg
      ("Target branch does not exist in remote branches of the repository '" ++
        cfg.target.repository ++ "'"))

/-- The per-container repository check's continuation (inside
`Common.verifyContainer`): given the repository names returned by the
registry service, throw when the expected repository is absent. -/
def repoCheckError (cfg : Config) (c : Container) (repositories : List String) :
    Option String :=
  if (repositories.find? fun r => r == c.repositoryName).isNone then
    some (getConsoleMessage cfg ("Container repository '" ++ c.repositoryName ++ "' not found."))
  else none

/-! ## `Common.verifyContainer`: the synchronous part -/

/-- The synchronous checks `Common.verifyContainer` performs for one entry
of the container-name list: `getContainer` lookup, the `isValidConfig`
aggregate (valid environment name; non-empty repository name, image path,
version list and tag — `Object.keys(x).length` is the string length for a
string field and the element count for the version array), then the
template-file existence probe.  Note the template-missing message is *not*
wrapped in `getConsoleMessage` in the source. -/
def containerCheck (cfg : Config) (fsExists : String → Bool) (imageName : String) :
    Except String Unit :=
  match getContainer cfg imageName with
  | none =>
    Except.error (getConsoleMessage cfg
      ("Container image '" ++ imageName ++ "' not found in 'cdk.json'"))
  | some config =>
    let isValid :=
      (validEnvNames.contains config.environment)
      && (config.repositoryName.length != 0)
      && (config.imagePath.length != 0)
      && (config.version.length != 0)
      && (config.tag.length != 0)
    if !isValid then
      Except.error (getConsoleMessage cfg
        ("Container settings '" ++ imageName ++ "' in 'cdk.json' not valid."))
    else
      let templateFile := config.imagePath ++ "/template"
      if !(fsExists templateFile) then
        Except.error ("Template file not found. Please check '" ++ templateFile ++ "' exists.")
      else Except.ok ()

/-- The per-name loop of `Common.verifyContainer` (the `containerNames.map`
whose callback throws on the first failing check). -/
def verifyContainerLoop (cfg : Config) (fsExists : String → Bool) :
    List String → Except String Unit
  | [] => Except.ok ()
  | n :: rest => do
    containerCheck cfg fsExists n
    verifyContainerLoop cfg fsExists rest

/-- `Common.verifyContainer`: run the per-container checks in order, then
the duplicate-name check (`containerNames.length !==
containerNameUniqueLength`).  The asynchronous repository checks it also
issues are modelled separately by `repoCheckError`. -/
def verifyContainer (cfg : Config) (fsExists : String → Bool) : Except String Unit := do
  let containerNames := cfg.containers.map (·.name)
  verifyContainerLoop cfg fsExists containerNames
  if containerNames.length != containerNames.dedup.length then
    Except.error (getConsoleMessage cfg "Container name duplicated in 'cdk.json'")
  else Except.ok ()

/-! ## TemplateRenderer (`Common.createDockerfile`) -/

/-- The placeholder token `$\x7bVERSION_i\x7d` (the JS template literal
`\$\x7bVERSION_$\x7bindex\x7d\x7d` escapes to that literal string, used as
a plain-string `replaceAll` pattern). -/
def versionToken (i : Nat) : String := "$\x7bVERSION_" ++ toString i ++ "\x7d"

/-- The substitution loop of `Common.createDockerfile`:
`config.version.forEach((element, index) => out = out.replaceAll(token(index), element))`. -/
def renderTemplate (template : String) (versions : List String) : String :=
  versions.enum.foldl (fun out p => replaceAllStr out (versionToken p.1) p.2) template

/-- `Common.createDockerfile`: look the container up, read its template at
`imagePath/template` with `readFileSync` and return the rendered Dockerfile
content.  The filesystem is an external collaborator: `fsRead` yields
either the file content or the filesystem error message (for a missing
template, ENOENT), which the catch-and-rethrow in the source surfaces
unchanged — no application prefix is added on that path. -/
def createDockerfile (cfg : Config) (imageName : String)
    (fsRead : String → Except String String) : Except String String :=
  match getContainer cfg imageName with
  | none =>
    Except.error (getConsoleMessage cfg
      ("Container image '" ++ imageName ++ "' not found in 'cdk.json'"))
  | some config =>
    match fsRead (config.imagePath ++ "/template") with
    | Except.error e => Except.error e
    | Except.ok content => Except.ok (renderTemplate content config.version)

/-! ## ProfileResolver (`Common.getVpcParameter`, `getS3Parameter`,
`getRdsParameter`, `getEcsParameter`) -/

/-- CDK `Duration`, normalized to seconds. -/
structure Duration where
  seconds : Nat
deriving DecidableEq, Repr

/-- `Duration.seconds(n)`. -/
def Duration.ofSeconds (n : Nat) : Duration := ⟨n⟩

/-- `Duration.minutes(n)`. -/
def Duration.ofMinutes (n : Nat) : Duration := ⟨n * 60⟩

/-- `Duration.days(n)`. -/
def Duration.ofDays (n : Nat) : Duration := ⟨n * 86400⟩

/-- CDK `RemovalPolicy` (the two values the source uses). -/
inductive RemovalPolicy where
  | retain
  | destroy
deriving DecidableEq, Repr

/-- The value object returned by `Common.getVpcParameter` (the CIDR block
is kept as its string). -/
structure VpcParameter where
  ipAddresses : String
  natGateways : Nat
  maxAzs : Nat
  subnetCidrMask : Nat
deriving DecidableEq, Repr

/-- `Common.getVpcParameter`. -/
def getVpcParameter (cfg : Config) : VpcParameter :=
  if isProductionOrStaging cfg then
    { ipAddresses := "10.0.0.0/16", natGateways := 2, maxAzs := 2, subnetCidrMask := 24 }
  else
    { ipAddresses := "10.0.0.0/16", natGateways := 1, maxAzs := 2, subnetCidrMask := 24 }

/-- The value object returned by `Common.getS3Parameter`. -/
structure S3Parameter where
  removalPolicy : RemovalPolicy
  autoDeleteObjects : Bool
  durationDays : Duration
deriving DecidableEq, Repr

/-- `Common.getS3Parameter`. -/
def getS3Parameter (cfg : Config) : S3Parameter :=
  if isProductionOrStaging cfg then
    { removalPolicy := RemovalPolicy.retain, autoDeleteObjects := false,
      durationDays := Duration.ofDays 90 }
  else
    { removalPolicy := RemovalPolicy.destroy, autoDeleteObjects := true,
      durationDays := Duration.ofDays 30 }

/-- `backup` block of the RDS profile. -/
structure RdsBackup where
  retentionDays : Duration
deriving DecidableEq, Repr

/-- `scaling` block of the RDS profile (serverless capacity units, which
are fractional on the non-durable tier). -/
structure RdsScaling where
  minCapacity : ℚ
  maxCapacity : ℚ
deriving DecidableEq, Repr

/-- The value object returned by `Common.getRdsParameter`. -/
structure RdsParameter where
  deletionProtection : Bool
  backup : RdsBackup
  monitoringInterval : Duration
  scaling : RdsScaling
  performanceInsightRetention : Duration
  secretRetentionDays : Duration
deriving DecidableEq, Repr

/-- `Common.getRdsParameter`. -/
def getRdsParameter (cfg : Config) : RdsParameter :=
  if isProductionOrStaging cfg then
    { deletionProtection := true,
      backup := { retentionDays := Duration.ofDays 7 },
      monitoringInterval := Duration.ofMinutes 1,
      scaling := { minCapacity := 2, maxCapacity := 64 },
      performanceInsightRetention := Duration.ofDays 7,
      secretRetentionDays := Duration.ofDays 7 }
  else
    { deletionProtection := false,
      backup := { retentionDays := Duration.ofDays 1 },
      monitoringInterval := Duration.ofMinutes 1,
      scaling := { minCapacity := 1 / 2, maxCapacity := 2 },
      performanceInsightRetention := Duration.ofDays 1,
      secretRetentionDays := Duration.ofDays 7 }

/-- Cron fields of a scheduled scaling rule. -/
structure CronOptions where
  minute : String
  hour : String
  weekDay : String
  month : String
  year : String
deriving DecidableEq, Repr

/-- The base (target-tracking) scaling rule of the ECS profile. -/
structure BaseScaling where
  minCapacity : Nat
  maxCapacity : Nat
  cpuUtilization : Nat
  scaleOutCoolDown : Duration
  scaleInCoolDown : Duration
deriving DecidableEq, Repr

/-- One schedule-based scaling rule of the ECS profile. -/
structure ScheduleScaling where
  minCapacity : Nat
  maxCapacity : Nat
  cron : CronOptions
deriving DecidableEq, Repr

/-- The four schedule-based scaling rules. -/
structure ScalingSchedule where
  beforeOpening : ScheduleScaling
  afterOpening : ScheduleScaling
  beforeClosing : ScheduleScaling
  afterClosing : ScheduleScaling
deriving DecidableEq, Repr

/-- `scaling` block of the ECS service profile. -/
structure ServiceScaling where
  base : BaseScaling
  schedule : ScalingSchedule
deriving DecidableEq, Repr

/-- Deployment circuit breaker (`undefined` on the non-durable tier is
modelled as `Option.none`). -/
structure CircuitBreaker where
  rollback : Bool
deriving DecidableEq, Repr

/-- `service` block of the ECS profile. -/
structure EcsService where
  nodeCount : Nat
  healthCheckGracePeriod : Duration
  circuitBreaker : Option CircuitBreaker
  scaling : ServiceScaling
deriving DecidableEq, Repr

/-- `taskDefinition` block of the ECS profile. -/
structure EcsTaskDefinition where
  cpu : Nat
  memoryLimitMiB : Nat
  command : List String
deriving DecidableEq, Repr

/-- `alb` block of the ECS profile. -/
structure AlbParameter where
  healthyThresholdCount : Nat
  interval : Duration
  timeout : Duration
  slowStart : Duration
  stickinessCookieDuration : Duration
deriving DecidableEq, Repr

/-- `bastion` block of the ECS profile. -/
structure BastionParameter where
  instanceType : String
deriving DecidableEq, Repr

/-- The value object returned by `Common.getEcsParameter`. -/
structure EcsParameter where
  taskDefinition : EcsTaskDefinition
  service : EcsService
  alb : AlbParameter
  bastion : BastionParameter
deriving DecidableEq, Repr

/-- `Common.getEcsParameter`. -/
def getEcsParameter (cfg : Config) : EcsParameter :=
  if isProductionOrStaging cfg then
    { taskDefinition :=
        { cpu := 4096, memoryLimitMiB := 8192, command := ["start", "--optimized"] },
      service :=
        { nodeCount := 4,
          healthCheckGracePeriod := Duration.ofMinutes 5,
          circuitBreaker := some { rollback := true },
          scaling :=
            { base :=
                { minCapacity := 2, maxCapacity := 8, cpuUtilization := 70,
                  scaleOutCoolDown := Duration.ofSeconds 300,
                  scaleInCoolDown := Duration.ofSeconds 300 },
              schedule :=
                { beforeOpening :=
                    { minCapacity := 4, maxCapacity := 24,
                      cron := { minute := "30", hour := "23", weekDay := "MON-FRI",
                                month := "*", year := "*" } },
                  afterOpening :=
                    { minCapacity := 2, maxCapacity := 8,
                      cron := { minute := "30", hour := "1", weekDay := "MON-FRI",
                                month := "*", year := "*" } },
                  beforeClosing :=
                    { minCapacity := 4, maxCapacity := 24,
                      cron := { minute := "0", hour := "8", weekDay := "MON-FRI",
                                month := "*", year := "*" } },
                  afterClosing :=
                    { minCapacity := 2, maxCapacity := 4,
                      cron := { minute := "0", hour := "10", weekDay := "MON-FRI",
                                month := "*", year := "*" } } } } },
      alb := { healthyThresholdCount := 3, interval := Duration.ofSeconds 60,
               timeout := Duration.ofSeconds 30, slowStart := Duration.ofSeconds 60,
               stickinessCookieDuration := Duration.ofDays 1 },
      bastion := { instanceType := "m5.large" } }
  else
    { taskDefinition :=
        { cpu := 1024, memoryLimitMiB := 2048, command := ["--verbose", "start"] },
      service :=
        { nodeCount := 1,
          healthCheckGracePeriod := Duration.ofMinutes 5,
          circuitBreaker := none,
          scaling :=
            { base :=
                { minCapacity := 1, maxCapacity := 2, cpuUtilization := 90,
                  scaleOutCoolDown := Duration.ofSeconds 300,
                  scaleInCoolDown := Duration.ofSeconds 300 },
              schedule :=
                { beforeOpening :=
                    { minCapacity := 2, maxCapacity := 4,
                      cron := { minute := "30", hour := "23", weekDay := "MON-FRI",
                                month := "*", year := "*" } },
                  afterOpening :=
                    { minCapacity := 1, maxCapacity := 2,
                      cron := { minute := "30", hour := "1", weekDay := "MON-FRI",
                                month := "*", year := "*" } },
                  beforeClosing :=
                    { minCapacity := 2, maxCapacity := 4,
                      cron := { minute := "0", hour := "8", weekDay := "MON-FRI",
                                month := "*", year := "*" } },
                  afterClosing :=
                    { minCapacity := 1, maxCapacity := 2,
                      cron := { minute := "0", hour := "10", weekDay := "MON-FRI",
                                month := "*", year := "*" } } } } },
      alb := { healthyThresholdCount := 3, interval := Duration.ofSeconds 60,
               timeout := Duration.ofSeconds 30, slowStart := Duration.ofSeconds 60,
               stickinessCookieDuration := Duration.ofDays 1 },
      bastion := { instanceType := "t3.micro" } }

/-! ## Process model for the asynchronous precondition checks -/

/-- The observed outcome of the three asynchronous precondition checks
(each field is the error the corresponding `.then` continuation throws, if
any). -/
structure AsyncCheckResults where
  identity : Option String
  branch : Option String
  repos : List String
deriving DecidableEq, Repr

/-- The three fire-and-observe checks, given the external services'
responses: the identity service's account, the branch list and the
repository list per container. -/
def runAsyncChecks (cfg : Config) (env : EnvRecord) (callerAccount : String)
    (branches : List String) (repoLists : Container → List String) :
    AsyncCheckResults :=
  { identity := identityCheckError cfg env callerAccount,
    branch := branchCheckError cfg branches,
    repos := cfg.containers.filterMap fun c => repoCheckError cfg c (repoLists c) }

/-- Modelled from the spec: the fire-and-observe rule of §4.2/§5 — each
check is issued without blocking the others, and any check's failure
surfaces as a process-terminating error before any resource is
provisioned (in the source this is the Node runtime turning the throw
inside an un-awaited `.then` continuation into a fatal unhandled
rejection).  Provisioning proceeds only when no check failed. -/
def provisioningProceeds (r : AsyncCheckResults) : Bool :=
  r.identity.isNone && r.branch.isNone && r.repos.isEmpty

/-! ## Spec-side definitions and concrete configuration documents used by
the claim theorems -/

/-- Spec-side well-formedness of one container record: valid tier
reference, non-empty repository name, image path, version list and tag. -/
def wellFormedContainer (c : Container) : Prop :=
  c.environment ∈ validEnvNames ∧ c.repositoryName ≠ "" ∧ c.imagePath ≠ "" ∧
  c.version ≠ [] ∧ c.tag ≠ ""

instance : DecidablePred wellFormedContainer := fun c => by
  unfold wellFormedContainer
  infer_instance

/-- Capitalization as the spec words it: map the first-char-upper /
rest-lower transform over the hyphen-separated words and concatenate. -/
def capitalizeSpec (value : String) : String :=
  ⟨((splitOnChar '-' value.data).map capWord).flatten⟩

/-- The `[APP] ` message head `getConsoleMessage` prepends. -/
def appMessageHead (cfg : Config) : String :=
  "[" ++ strUpper cfg.target.application ++ "] "

/-- The development-tier scenario target of the spec (§8): application
`demo`, environment tier `development`, branch `feature-1`. -/
def demoCfg : Config :=
  { target := { application := "demo", environment := "development",
                branch := "feature-1", repository := "repo" },
    environments := [{ name := "dev", account := "111111111111",
                       region := "ap-northeast-1", domain := "example.com" }],
    containers := [{ name := "keycloak", environment := "dev", repositoryName := "keycloak",
                     imagePath := "./containers/keycloak", version := ["1.2.3"],
                     tag := "latest" }] }

/-- A production-tier configuration used to instantiate the tier-dependent
claims. -/
def prodCfg : Config :=
  { target := { application := "demo", environment := "prod",
                branch := "main", repository := "repo" },
    environments := [{ name := "prod", account := "222222222222",
                       region := "ap-northeast-1", domain := "example.com" }],
    containers := [] }

/-- A development-tier (`dev`) configuration used to instantiate the
tier-dependent claims. -/
def devCfg : Config :=
  { target := { application := "demo", environment := "dev",
                branch := "feature-1", repository := "repo" },
    environments := [{ name := "dev", account := "111111111111",
                       region := "ap-northeast-1", domain := "example.com" }],
    containers := [] }

/-- A configuration with the same target as `devCfg` but a different
environment and container collection (used to instantiate determinism over
distinct documents with identical targets). -/
def devCfgB : Config :=
  { target := devCfg.target, environments := [], containers := [] }

/-- A configuration whose two environment records share an account
identifier (everything else valid). -/
def dupAccountCfg : Config :=
  { target := { application := "demo", environment := "dev",
                branch := "feature-1", repository := "repo" },
    environments := [{ name := "dev", account := "111111111111",
                       region := "ap-northeast-1", domain := "example.com" },
                     { name := "stg", account := "111111111111",
                       region := "ap-northeast-1", domain := "example.com" }],
    containers := [] }

/-- A configuration with two well-formed container records sharing the
logical name `keycloak`. -/
def dupContainerCfg : Config :=
  { target := { application := "demo", environment := "dev",
                branch := "feature-1", repository := "repo" },
    environments := [{ name := "dev", account := "111111111111",
                       region := "ap-northeast-1", domain := "example.com" }],
    containers := [{ name := "keycloak", environment := "dev", repositoryName := "keycloak",
                     imagePath := "./containers/keycloak", version := ["1.2.3"],
                     tag := "latest" },
                   { name := "keycloak", environment := "dev", repositoryName := "keycloak2",
                     imagePath := "./containers/keycloak2", version := ["2.0.0"],
                     tag := "latest" }] }

/-- A variant of the development scenario target whose branch spells
`Feature1` instead of `feature-1`. -/
def demoCfgAltBranch : Config :=
  { target := { application := "demo", environment := "development",
                branch := "Feature1", repository := "repo" },
    environments := demoCfg.environments,
    containers := demoCfg.containers }

/-- A variant of the development scenario target whose application is
upper-cased. -/
def demoCfgAltApp : Config :=
  { target := { application := "DEMO", environment := "development",
                branch := "feature-1", repository := "repo" },
    environments := demoCfg.environments,
    containers := demoCfg.containers }

/-! ## Supporting lemmas -/

theorem dedup_length_eq_iff {α : Type} [DecidableEq α] {l : List α} :
    l.dedup.length = l.length ↔ l.Nodup := by
  constructor
  · intro h
    have hs := List.dedup_sublist l
    have he := hs.eq_of_length h
    exact he ▸ List.nodup_dedup l
  · intro h
    rw [List.dedup_eq_self.mpr h]

theorem string_length_eq_zero_iff {s : String} : s.length = 0 ↔ s = "" := by
  cases s with
  | mk data => simp [String.length, String.ext_iff]

theorem isValidEnvironment_eq_true_iff (cfg : Config) :
    isValidEnvironment cfg = true ↔
      (cfg.target.environment ∈ validEnvNames
      ∧ (∀ e ∈ cfg.environments, e.name ∈ validEnvNames)
      ∧ (cfg.environments.map (·.name)).Nodup
      ∧ (cfg.environments.map (·.account)).Nodup
      ∧ (cfg.environments.filter (fun e => e.name == cfg.target.environment)).length = 1) := by
  unfold isValidEnvironment
  simp only [Bool.and_eq_true, beq_iff_eq, List.all_eq_true, List.mem_map]
  constructor
  · rintro ⟨⟨⟨⟨h1, h2⟩, h3⟩, h4⟩, h5⟩
    have hn : (cfg.environments.map (·.name)).Nodup := dedup_length_eq_iff.mp h3.symm
    have hacc : (cfg.environments.map (·.account)).Nodup := by
      apply dedup_length_eq_iff.mp
      rw [← h4, ← h3, List.length_map, List.length_map]
    refine ⟨by simpa using h1, ?_, hn, hacc, ?_⟩
    · intro e he
      simpa using h2 e.name ⟨e, he, rfl⟩
    · rw [List.filter_map, List.length_map] at h5
      simpa [Function.comp] using h5
  · rintro ⟨h1, h2, h3, h4, h5⟩
    have h3l : (cfg.environments.map (·.name)).dedup.length
        = (cfg.environments.map (·.name)).length := dedup_length_eq_iff.mpr h3
    have h4l : (cfg.environments.map (·.account)).dedup.length
        = (cfg.environments.map (·.account)).length := dedup_length_eq_iff.mpr h4
    refine ⟨⟨⟨⟨by simpa using h1, ?_⟩, h3l.symm⟩, ?_⟩, ?_⟩
    · rintro x ⟨e, he, rfl⟩
      simpa using h2 e he
    · rw [h3l, h4l, List.length_map, List.length_map]
    · rw [List.filter_map, List.length_map]
      simpa [Function.comp] using h5

theorem verifyContainerLoop_ok (cfg : Config) (fsExists : String → Bool)
    (names : List String)
    (h : ∀ n ∈ names, containerCheck cfg fsExists n = Except.ok ()) :
    verifyContainerLoop cfg fsExists names = Except.ok () := by
  induction names with
  | nil => rfl
  | cons n rest ih =>
    have hn := h n (List.mem_cons_self n rest)
    simp only [verifyContainerLoop, hn, bind, Except.bind]
    exact ih fun m hm => h m (List.mem_cons_of_mem n hm)

theorem containerCheck_ok (cfg : Config) (fsExists : String → Bool)
    (hall : ∀ c ∈ cfg.containers,
      wellFormedContainer c ∧ fsExists (c.imagePath ++ "/template") = true)
    (n : String) (hn : n ∈ cfg.containers.map (·.name)) :
    containerCheck cfg fsExists n = Except.ok () := by
  obtain ⟨c, hc, rfl⟩ := List.mem_map.mp hn
  have hex : (cfg.containers.find? fun x => x.name == c.name).isSome := by
    rw [List.find?_isSome]
    exact ⟨c, hc, by simp⟩
  obtain ⟨c', hc'⟩ := Option.isSome_iff_exists.mp hex
  have hmem := List.mem_of_find?_eq_some hc'
  obtain ⟨⟨henv, hrep, himg, hver, htag⟩, hfs⟩ := hall c' hmem
  unfold containerCheck getContainer
  rw [hc']
  simp [hfs]
  exact ⟨⟨⟨⟨henv, fun h0 => hrep (string_length_eq_zero_iff.mp h0)⟩,
    fun h0 => himg (string_length_eq_zero_iff.mp h0)⟩, hver⟩,
    fun h0 => htag (string_length_eq_zero_iff.mp h0)⟩

theorem replaceAllAux_id_of_no_match (pat rep : List Char) :
    ∀ (fuel : Nat) (l : List Char), ¬ (pat <:+: l) → replaceAllAux pat rep fuel l = l := by
  intro fuel
  induction fuel with
  | zero =>
    intro l _
    cases l <;> rfl
  | succ fuel ih =>
    intro l hnot
    cases l with
    | nil => rfl
    | cons c cs =>
      have hpre : pat.isPrefixOf (c :: cs) = false := by
        cases hp : pat.isPrefixOf (c :: cs) with
        | false => rfl
        | true =>
          exact absurd (List.isPrefixOf_iff_prefix.mp hp).isInfix hnot
      unfold replaceAllAux
      rw [hpre]
      simp only [Bool.false_and, if_neg (by simp : ¬ (false = true))]
      rw [ih cs (fun hin => hnot (List.infix_cons hin))]

theorem replaceAllStr_id_of_no_match (s pat rep : String)
    (h : ¬ (pat.data <:+: s.data)) : replaceAllStr s pat rep = s := by
  unfold replaceAllStr
  rw [replaceAllAux_id_of_no_match pat.data rep.data s.data.length s.data h]

theorem renderTemplate_untouched_aux (template : String) :
    ∀ (vs : List String) (k : Nat),
      (∀ i, i < vs.length → ¬ ((versionToken (k + i)).data <:+: template.data)) →
      (vs.enumFrom k).foldl
        (fun out p => replaceAllStr out (versionToken p.1) p.2) template = template := by
  intro vs
  induction vs with
  | nil => intro k _; rfl
  | cons v rest ih =>
    intro k h
    have h0 : ¬ ((versionToken k).data <:+: template.data) := by
      have := h 0 (by simp)
      simpa using this
    simp only [List.enumFrom, List.foldl_cons]
    rw [replaceAllStr_id_of_no_match template (versionToken k) v h0]
    exact ih (k + 1) (fun i hi => by
      have := h (i + 1) (by simpa using Nat.succ_lt_succ hi)
      simpa [Nat.add_assoc, Nat.add_comm 1 i] using this)

theorem foldl_append_eq_join {α : Type} (f : α → List Char) :
    ∀ (l : List α) (init : List Char),
      l.foldl (fun acc w => acc ++ f w) init = init ++ (l.map f).flatten := by
  intro l
  induction l with
  | nil => intro init; simp
  | cons w ws ih =>
    intro init
    simp [ih, List.append_assoc]

theorem capitalizeString_eq_spec (value : String) :
    capitalizeString value = capitalizeSpec value := by
  unfold capitalizeString capitalizeSpec
  rw [foldl_append_eq_join]
  rfl

theorem startsWithStr_self_append (p t : String) : startsWithStr p (p ++ t) = true := by
  unfold startsWithStr
  rw [String.data_append, List.isPrefixOf_iff_prefix]
  exact List.prefix_append _ _

theorem startsWithStr_append_of (p q t : String) (h : startsWithStr p q = true) :
    startsWithStr p (q ++ t) = true := by
  unfold startsWithStr at *
  rw [String.data_append, List.isPrefixOf_iff_prefix] at *
  exact h.trans (List.prefix_append _ _)

theorem getConsoleMessage_starts (cfg : Config) (v : String) :
    startsWithStr (appMessageHead cfg) (getConsoleMessage cfg v) = true := by
  have h : getConsoleMessage cfg v = appMessageHead cfg ++ v := rfl
  rw [h]
  exact startsWithStr_self_append _ _

theorem containerCheck_error_shape (cfg : Config) (fsExists : String → Bool)
    (n m : String) (h : containerCheck cfg fsExists n = Except.error m) :
    startsWithStr (appMessageHead cfg) m = true ∨
    startsWithStr "Template file not found." m = true := by
  unfold containerCheck at h
  split at h
  · injection h with h
    exact Or.inl (h ▸ getConsoleMessage_starts cfg _)
  · dsimp only [] at h
    split at h
    · injection h with h
      exact Or.inl (h ▸ getConsoleMessage_starts cfg _)
    · split at h
      · injection h with h
        refine Or.inr ?_
        rw [← h]
        apply startsWithStr_append_of
        apply startsWithStr_append_of
        decide
      · exact absurd h (by simp)

theorem verifyContainerLoop_error_shape (cfg : Config) (fsExists : String → Bool)
    (m : String) :
    ∀ names : List String, verifyContainerLoop cfg fsExists names = Except.error m →
    startsWithStr (appMessageHead cfg) m = true ∨
    startsWithStr "Template file not found." m = true := by
  intro names
  induction names with
  | nil => intro h; exact absurd h (by simp [verifyContainerLoop])
  | cons n rest ih =>
    intro h
    unfold verifyContainerLoop at h
    cases hc : containerCheck cfg fsExists n with
    | error e =>
      rw [hc] at h
      simp only [bind, Except.bind] at h
      injection h with h
      exact h ▸ containerCheck_error_shape cfg fsExists n e hc
    | ok u =>
      cases u
      rw [hc] at h
      simp only [bind, Except.bind] at h
      exact ih h

theorem verifyContainer_error_shape (cfg : Config) (fsExists : String → Bool)
    (m : String) (h : verifyContainer cfg fsExists = Except.error m) :
    startsWithStr (appMessageHead cfg) m = true ∨
    startsWithStr "Template file not found." m = true := by
  unfold verifyContainer at h
  dsimp only [] at h
  cases hl : verifyContainerLoop cfg fsExists (cfg.containers.map (·.name)) with
  | error e =>
    rw [hl] at h
    simp only [bind, Except.bind] at h
    injection h with h
    exact h ▸ verifyContainerLoop_error_shape cfg fsExists e _ hl
  | ok u =>
    cases u
    rw [hl] at h
    simp only [bind, Except.bind] at h
    by_cases hd : ((cfg.containers.map (·.name)).length !=
        (cfg.containers.map (·.name)).dedup.length) = true
    · rw [if_pos hd] at h
      injection h with h
      exact Or.inl (h ▸ getConsoleMessage_starts cfg _)
    · rw [if_neg hd] at h
      exact absurd h (by simp)

/-! ## Claim theorems -/

/-- C1: whenever the identity service's account differs from the target
environment's account, the identity check fails with the mismatch error and
provisioning does not proceed, whatever the branch and repository checks
returned. -/
theorem claim1_identity_mismatch_blocks (cfg : Config) (env : EnvRecord)
    (callerAccount : String) (branches : List String)
    (repoLists : Container → List String)
    (_henv : getEnvironment cfg = some env)
    (hmismatch : callerAccount ≠ env.account) :
    (runAsyncChecks cfg env callerAccount branches repoLists).identity =
      some (identityMismatchMsg cfg callerAccount env.account)
    ∧ provisioningProceeds (runAsyncChecks cfg env callerAccount branches repoLists) = false := by
  have hid : identityCheckError cfg env callerAccount =
      some (identityMismatchMsg cfg callerAccount env.account) := by
    unfold identityCheckError
    rw [if_neg (by simpa using hmismatch)]
  refine ⟨hid, ?_⟩
  unfold provisioningProceeds runAsyncChecks
  simp [hid]

theorem claim1_witness :
    (runAsyncChecks devCfg
        { name := "dev", account := "111111111111",
          region := "ap-northeast-1", domain := "example.com" }
        "999999999999" ["feature-1"] (fun _ => ["keycloak"])).identity =
      some (identityMismatchMsg devCfg "999999999999" "111111111111")
    ∧ provisioningProceeds (runAsyncChecks devCfg
        { name := "dev", account := "111111111111",
          region := "ap-northeast-1", domain := "example.com" }
        "999999999999" ["feature-1"] (fun _ => ["keycloak"])) = false :=
  claim1_identity_mismatch_blocks devCfg _ "999999999999" ["feature-1"]
    (fun _ => ["keycloak"]) (by decide) (by decide)

/-- C2: `verifyEnvironment` raises the configuration error iff at least one
of the five validity predicates fails. -/
theorem claim2_verifyEnvironment_error_iff (cfg : Config) :
    verifyEnvironment cfg =
      Except.error (getConsoleMessage cfg "Environment setting in 'cdk.json' not valid.")
    ↔ (cfg.target.environment ∉ validEnvNames
      ∨ (∃ e ∈ cfg.environments, e.name ∉ validEnvNames)
      ∨ ¬ (cfg.environments.map (·.name)).Nodup
      ∨ ¬ (cfg.environments.map (·.account)).Nodup
      ∨ (cfg.environments.filter (fun e => e.name == cfg.target.environment)).length ≠ 1) := by
  have hmain := isValidEnvironment_eq_true_iff cfg
  unfold verifyEnvironment
  cases hb : isValidEnvironment cfg with
  | false =>
    rw [hb] at hmain
    simp only [if_neg (by simp : ¬ (false = true))]
    constructor
    · intro _
      by_contra hno
      push_neg at hno
      exact absurd (hmain.mpr ⟨hno.1, fun e he => hno.2.1 e he, hno.2.2.1, hno.2.2.2.1, hno.2.2.2.2⟩) (by simp)
    · intro _
      trivial
  | true =>
    rw [hb] at hmain
    have hconj := hmain.mp rfl
    simp only [if_pos (by rfl : true = true)]
    constructor
    · intro h
      exact absurd h (by simp)
    · rintro (h | h | h | h | h)
      · exact absurd hconj.1 h
      · obtain ⟨e, he, hne⟩ := h
        exact absurd (hconj.2.1 e he) hne
      · exact absurd hconj.2.2.1 h
      · exact absurd hconj.2.2.2.1 h
      · exact absurd hconj.2.2.2.2 h

theorem claim2_witness :
    verifyEnvironment dupAccountCfg =
      Except.error (getConsoleMessage dupAccountCfg "Environment setting in 'cdk.json' not valid.") :=
  (claim2_verifyEnvironment_error_iff dupAccountCfg).mpr (by decide)

/-- C3: a container collection with a duplicate logical name is rejected
whenever every record is otherwise well-formed and its template exists. -/
theorem claim3_duplicate_container_name_rejected (cfg : Config)
    (fsExists : String → Bool)
    (hdup : ¬ (cfg.containers.map (·.name)).Nodup)
    (hall : ∀ c ∈ cfg.containers,
      wellFormedContainer c ∧ fsExists (c.imagePath ++ "/template") = true) :
    verifyContainer cfg fsExists =
      Except.error (getConsoleMessage cfg "Container name duplicated in 'cdk.json'") := by
  have hloop := verifyContainerLoop_ok cfg fsExists (cfg.containers.map (·.name))
    (fun n hn => containerCheck_ok cfg fsExists hall n hn)
  have hne : (cfg.containers.map (·.name)).length ≠
      (cfg.containers.map (·.name)).dedup.length := by
    intro h
    exact hdup (dedup_length_eq_iff.mp h.symm)
  unfold verifyContainer
  simp only [hloop, bind, Except.bind]
  rw [if_pos (by simpa using hne)]

theorem claim3_witness :
    verifyContainer dupContainerCfg (fun _ => true) =
      Except.error (getConsoleMessage dupContainerCfg "Container name duplicated in 'cdk.json'") :=
  claim3_duplicate_container_name_rejected dupContainerCfg (fun _ => true)
    (by decide) (by decide)

/-- C4: durable tiers (`prod`, `stg`) yield `app-env-base`; any other tier
yields `app-env-branch-base`. -/
theorem claim4_resourceName_shape (cfg : Config) (base : String) :
    ((cfg.target.environment = "prod" ∨ cfg.target.environment = "stg") →
      getResourceName cfg base =
        cfg.target.application ++ "-" ++ cfg.target.environment ++ "-" ++ base)
    ∧ (cfg.target.environment ≠ "prod" → cfg.target.environment ≠ "stg" →
      getResourceName cfg base =
        cfg.target.application ++ "-" ++ cfg.target.environment ++ "-" ++
          cfg.target.branch ++ "-" ++ base) := by
  constructor
  · intro h
    unfold getResourceName isProductionOrStaging
    rcases h with h | h <;> simp [h]
  · intro h1 h2
    unfold getResourceName isProductionOrStaging
    simp [h1, h2]

theorem claim4_witness :
    getResourceName prodCfg "alb" = "demo-prod-alb" ∧
    getResourceName devCfg "alb" = "demo-dev-feature-1-alb" := by
  constructor
  · exact ((claim4_resourceName_shape prodCfg "alb").1 (Or.inl rfl)).trans (by decide)
  · exact ((claim4_resourceName_shape devCfg "alb").2 (by decide) (by decide)).trans (by decide)

/-- C5: the spec scenario — `identifier("CertStack")` and
`resourceName("alb")` for application `demo`, tier `development`, branch
`feature-1`. -/
theorem claim5_scenario :
    getId demoCfg "CertStack" = "DemoDevelopmentFeature1CertStack" ∧
    getResourceName demoCfg "alb" = "demo-development-feature-1-alb" := by
  decide

/-- C6: the renderer substitutes `${VERSION_i}` positionally; any
template whose in-range placeholders are absent (in particular every
out-of-range placeholder) is left verbatim, and the spec scenarios hold:
`FROM x:${VERSION_0}` with `["1.2.3"]` renders to `FROM x:1.2.3`,
while the out-of-range `${VERSION_1}` is left unmodified. -/
theorem claim6_renderTemplate :
    (∀ (template : String) (versions : List String),
      (∀ i, i < versions.length → ¬ ((versionToken i).data <:+: template.data)) →
      renderTemplate template versions = template)
    ∧ renderTemplate "FROM x:$\x7bVERSION_0\x7d" ["1.2.3"] = "FROM x:1.2.3"
    ∧ renderTemplate "FROM x:$\x7bVERSION_1\x7d" ["1.2.3"] = "FROM x:$\x7bVERSION_1\x7d" := by
  refine ⟨?_, by decide, by decide⟩
  intro template versions h
  unfold renderTemplate
  exact renderTemplate_untouched_aux template versions 0 (fun i hi => by simpa using h i hi)

theorem claim6_witness :
    renderTemplate "FROM alpine:3.20" ["1.2.3"] = "FROM alpine:3.20" :=
  claim6_renderTemplate.1 "FROM alpine:3.20" ["1.2.3"] (by decide)

/-- C7: the base scaling rule of the compute profile per tier. -/
theorem claim7_base_scaling (cfg : Config) :
    (cfg.target.environment = "prod" →
      (getEcsParameter cfg).service.scaling.base.minCapacity = 2 ∧
      (getEcsParameter cfg).service.scaling.base.maxCapacity = 8 ∧
      (getEcsParameter cfg).service.scaling.base.cpuUtilization = 70)
    ∧ (cfg.target.environment = "dev" →
      (getEcsParameter cfg).service.scaling.base.minCapacity = 1 ∧
      (getEcsParameter cfg).service.scaling.base.maxCapacity = 2 ∧
      (getEcsParameter cfg).service.scaling.base.cpuUtilization = 90) := by
  constructor <;> intro h <;>
    simp [getEcsParameter, isProductionOrStaging, h]

theorem claim7_witness :
    ((getEcsParameter prodCfg).service.scaling.base.minCapacity = 2 ∧
      (getEcsParameter prodCfg).service.scaling.base.maxCapacity = 8 ∧
      (getEcsParameter prodCfg).service.scaling.base.cpuUtilization = 70)
    ∧ ((getEcsParameter devCfg).service.scaling.base.minCapacity = 1 ∧
      (getEcsParameter devCfg).service.scaling.base.maxCapacity = 2 ∧
      (getEcsParameter devCfg).service.scaling.base.cpuUtilization = 90) :=
  ⟨(claim7_base_scaling prodCfg).1 rfl, (claim7_base_scaling devCfg).2 rfl⟩

/-- C8: the naming functions depend only on the target, and every profile
resolver depends only on the target's tier classification, so repeated
calls with the same inputs are value-identical. -/
theorem claim8_determinism (c1 c2 : Config) (base : String) :
    (c1.target = c2.target →
      getId c1 base = getId c2 base ∧
      getResourceName c1 base = getResourceName c2 base)
    ∧ (c1.target.environment = c2.target.environment →
      getVpcParameter c1 = getVpcParameter c2 ∧
      getS3Parameter c1 = getS3Parameter c2 ∧
      getRdsParameter c1 = getRdsParameter c2 ∧
      getEcsParameter c1 = getEcsParameter c2) := by
  constructor
  · intro h
    constructor <;> simp [getId, getResourceName, isProductionOrStaging, h]
  · intro h
    refine ⟨?_, ?_, ?_, ?_⟩ <;>
      simp [getVpcParameter, getS3Parameter, getRdsParameter, getEcsParameter,
        isProductionOrStaging, h]

theorem claim8_witness :
    (getId devCfg "CertStack" = getId devCfgB "CertStack" ∧
      getResourceName devCfg "CertStack" = getResourceName devCfgB "CertStack")
    ∧ getEcsParameter devCfg = getEcsParameter devCfgB :=
  ⟨(claim8_determinism devCfg devCfgB "CertStack").1 rfl,
    ((claim8_determinism devCfg devCfgB "CertStack").2 rfl).2.2.2⟩

/-- C9 counterexample: with the development scenario document and a
filesystem on which the template file is absent, `verifyContainer` raises
the `ArtifactNotFoundError` message verbatim, and that message does not
begin with the application-name prefix `[DEMO] `. -/
theorem claim9_counterexample :
    verifyContainer demoCfg (fun _ => false) =
      Except.error "Template file not found. Please check './containers/keycloak/template' exists."
    ∧ startsWithStr (appMessageHead demoCfg)
        "Template file not found. Please check './containers/keycloak/template' exists." = false := by
  constructor
  · rfl
  · decide

/-- C9 (amended): every error raised by the engine carries the
application-name-prefixed message, except (a) the template-missing
`ArtifactNotFoundError` inside `verifyContainer`, whose message starts with
`Template file not found.` instead, and (b) the renderer's template-read
failure, where `createDockerfile` rethrows the external filesystem error
message unchanged (for a missing template, an unprefixed ENOENT). -/
theorem claim9_amended_error_messages (cfg : Config) (env : EnvRecord)
    (callerAccount : String) (branches : List String) (c : Container)
    (repositories : List String) (imageName : String)
    (fsRead : String → Except String String)
    (fsExists : String → Bool) (m : String) :
    (verifyEnvironment cfg = Except.error m →
      startsWithStr (appMessageHead cfg) m = true)
    ∧ (identityCheckError cfg env callerAccount = some m →
      startsWithStr (appMessageHead cfg) m = true)
    ∧ (branchCheckError cfg branches = some m →
      startsWithStr (appMessageHead cfg) m = true)
    ∧ (repoCheckError cfg c repositories = some m →
      startsWithStr (appMessageHead cfg) m = true)
    ∧ (createDockerfile cfg imageName fsRead = Except.error m →
      startsWithStr (appMessageHead cfg) m = true ∨
      (∃ path, fsRead path = Except.error m))
    ∧ (verifyContainer cfg fsExists = Except.error m →
      startsWithStr (appMessageHead cfg) m = true ∨
      startsWithStr "Template file not found." m = true) := by
  refine ⟨?_, ?_, ?_, ?_, ?_, verifyContainer_error_shape cfg fsExists m⟩
  · intro h
    unfold verifyEnvironment at h
    split at h
    · exact absurd h (by simp)
    · injection h with h
      exact h ▸ getConsoleMessage_starts cfg _
  · intro h
    unfold identityCheckError at h
    split at h
    · exact absurd h (by simp)
    · injection h with h
      exact h ▸ getConsoleMessage_starts cfg _
  · intro h
    unfold branchCheckError at h
    split at h
    · exact absurd h (by simp)
    · injection h with h
      exact h ▸ getConsoleMessage_starts cfg _
  · intro h
    unfold repoCheckError at h
    split at h
    · injection h with h
      exact h ▸ getConsoleMessage_starts cfg _
    · exact absurd h (by simp)
  · intro h
    unfold createDockerfile at h
    split at h
    · injection h with h
      exact Or.inl (h ▸ getConsoleMessage_starts cfg _)
    · split at h
      next e heq =>
        injection h with h
        exact Or.inr ⟨_, h ▸ heq⟩
      next content heq =>
        exact absurd h (by simp)

theorem claim9_witness :
    startsWithStr (appMessageHead dupAccountCfg)
      (getConsoleMessage dupAccountCfg "Environment setting in 'cdk.json' not valid.") = true :=
  (claim9_amended_error_messages dupAccountCfg
      { name := "dev", account := "111111111111",
        region := "ap-northeast-1", domain := "example.com" }
      "111111111111" []
      { name := "keycloak", environment := "dev",
        repositoryName := "keycloak", imagePath := "./containers/keycloak",
        version := ["1.2.3"], tag := "latest" }
      [] "keycloak" (fun _ => Except.ok "FROM x") (fun _ => true) _).1 rfl

/-- C10: `getId` is the word-wise capitalization of application,
environment and branch followed by the base token, and is therefore not
injective: targets differing only in letter case or hyphen placement
collide. -/
theorem claim10_getId_normalization :
    (∀ (cfg : Config) (base : String),
      getId cfg base =
        ⟨((splitOnChar '-' cfg.target.application.data).map capWord).flatten ++
          (((splitOnChar '-' cfg.target.environment.data).map capWord).flatten ++
            (((splitOnChar '-' cfg.target.branch.data).map capWord).flatten ++ base.data))⟩)
    ∧ (demoCfg ≠ demoCfgAltBranch ∧
        getId demoCfg "CertStack" = getId demoCfgAltBranch "CertStack")
    ∧ (demoCfg ≠ demoCfgAltApp ∧
        getId demoCfg "CertStack" = getId demoCfgAltApp "CertStack") := by
  refine ⟨?_, by decide, by decide⟩
  intro cfg base
  unfold getId
  rw [capitalizeString_eq_spec, capitalizeString_eq_spec, capitalizeString_eq_spec]
  unfold capitalizeSpec
  cases base with
  | mk b =>
    simp [String.ext_iff, String.data_append]

end KeycloakCdk
